import Mathlib

/-!
Verification of the SpringFull compression-spring sizing engine
(src/SpringFull/SpringFullCalculatorModule.py), shallowly embedded in Lean 4.

Modelling conventions:
- Python floats that hold UI inputs, reference-table entries and the loop
  state are embedded as rationals (every IEEE float value is rational);
  the one irrational-valued expression of the engine, the cube root
  `val ** (1/3)` inside the minimum-wire-diameter formula, is embedded
  over the reals with `Real.rpow` (see `d_mini_calc` below).
- The diameter-type combo box holds exactly three entries
  ("Dm (moyen)", "Di (intérieur)", "De (extérieur)"); the code branches on
  substring tests `"Di" in ty` / `"De" in ty`, which we embed as a
  three-constructor inductive type.
- The wire-diameter combo box round-trips values through a "%.2f" display
  string; for the standard tables (two-decimal entries such as 1.0 … 6.0)
  this round trip is the identity, and it is modelled as such.
- The convergence loop (`_recalc`, lines 1504-1555) consumes the computed
  minimum diameter `d_mini` only through the comparisons of
  `_filter_diameters`; since its float value is a function of the current
  `(d, Dm)` state with all other inputs fixed, the loop embedding takes the
  `d_mini` computation as an explicit function parameter `dmini`, and the
  loop theorems are proved for every such function.  The `d_mini` formula
  itself is verified separately over ℝ (`d_mini_calc`).
-/

/-- The diameter-type tag of the target-diameter input: mean ("Dm (moyen)"),
inner ("Di (intérieur)") or outer ("De (extérieur)"). -/
inductive DiameterType
  | mean
  | inner
  | outer
deriving DecidableEq

/-- `SpringCalculatorDialog._compute_Dm_from_target` (lines 1438-1458):
recover the mean diameter `Dm` from the user's target diameter and its
diameter-type tag, given the wire diameter. -/
def compute_Dm_from_target (target_diameter : ℚ) (diameter_type : DiameterType)
    (d_wire : ℚ) : ℚ :=
  match diameter_type with
  | .inner => target_diameter + d_wire
  | .outer => target_diameter - d_wire
  | .mean => target_diameter

/-- The "convert to the new type" half of `_on_diameter_type_changed`
(lines 1388-1394): project a mean diameter onto a diameter-type tag. -/
def project_Dm_to_type (diameter_type : DiameterType) (Dm_actual d : ℚ) : ℚ :=
  match diameter_type with
  | .inner => Dm_actual - d
  | .outer => Dm_actual + d
  | .mean => Dm_actual

/-- `SpringCalculatorDialog._on_diameter_type_changed` (lines 1360-1405):
the new displayed numeral after the user switches the diameter-type tag.
Lines 1380-1386 inline the same arithmetic as `_compute_Dm_from_target`
(recover `Dm` under the old tag) and lines 1388-1394 its inverse projection
onto the new tag; on a no-op change the handler returns early, leaving the
displayed value untouched. -/
def on_diameter_type_changed (old_type new_type : DiameterType)
    (current_value d : ℚ) : ℚ :=
  if old_type = new_type then current_value
  else project_Dm_to_type new_type
    (compute_Dm_from_target current_value old_type d) d

/-- `max_iterations = 10` (line 1504). -/
def max_iterations : Nat := 10

/-- `tolerance = 0.001` (line 1505). -/
def tolerance : ℚ := 0.001

/-- `SpringCalculatorDialog._filter_diameters` (lines 1896-1951), list part:
keep the standard wire diameters `≥ d_mini`; if none qualifies, fall back to
the last five entries of the full table (Python `self._all_diameters[-5:]`),
or the whole table when it has fewer than five entries. -/
def filter_diameters (all_diameters : List ℚ) (d_mini : ℚ) : List ℚ :=
  let valid := all_diameters.filter (fun x => decide (d_mini ≤ x))
  if valid.isEmpty then
    if 5 ≤ all_diameters.length then
      all_diameters.drop (all_diameters.length - 5)
    else all_diameters
  else valid

/-- The selection rule of `_filter_diameters` with `force_select_minimum =
False` (lines 1932-1946), composed with the read-back
`d_new = float(self.inp_d.currentText())` of line 1537: keep the current
selection when it still qualifies and survived the filtering, otherwise
select the first entry of the filtered list; when the filtered list is empty
(possible only for an empty table) the read-back fails and the caller keeps
the current value. -/
def select_diameter (all_diameters : List ℚ) (d_mini current_d : ℚ) : ℚ :=
  let valid := filter_diameters all_diameters d_mini
  if d_mini ≤ current_d ∧ current_d ∈ valid then current_d
  else valid.headD current_d

/-- One iteration of the convergence loop of `_recalc` (lines 1510-1555),
with the `d_mini` computation abstracted as `dmini` (a function of the
current wire diameter and the guarded mean diameter): returns the updated
state `(d_new, Dm_new)` and the convergence flag of line 1549. -/
def recalcIter (dmini : ℚ → ℚ → ℚ) (all_diameters : List ℚ)
    (target_diameter : ℚ) (diameter_type : DiameterType) (p : ℚ × ℚ) :
    (ℚ × ℚ) × Bool :=
  let d := p.1
  let Dm := if p.2 ≤ d then d + 1 else p.2
  let d_new := select_diameter all_diameters (dmini d Dm) d
  let Dm_new0 := compute_Dm_from_target target_diameter diameter_type d_new
  let Dm_new := if Dm_new0 ≤ 0 then d_new + 1 else Dm_new0
  ((d_new, Dm_new), decide (|d_new - d| < tolerance ∧ |Dm_new - Dm| < tolerance))

/-- The state update of one loop iteration (lines 1550-1551 and 1554-1555;
the update is the same whether or not the iteration breaks). -/
def recalcStep (dmini : ℚ → ℚ → ℚ) (all_diameters : List ℚ)
    (target_diameter : ℚ) (diameter_type : DiameterType) (p : ℚ × ℚ) : ℚ × ℚ :=
  (recalcIter dmini all_diameters target_diameter diameter_type p).1

/-- The convergence test of one loop iteration (line 1549). -/
def recalcConv (dmini : ℚ → ℚ → ℚ) (all_diameters : List ℚ)
    (target_diameter : ℚ) (diameter_type : DiameterType) (p : ℚ × ℚ) : Bool :=
  (recalcIter dmini all_diameters target_diameter diameter_type p).2

/-- The `d_mini` argument fed to the filtering at a state `p`, after the
`Dm <= d` guard of line 1512. -/
def dmini_at (dmini : ℚ → ℚ → ℚ) (p : ℚ × ℚ) : ℚ :=
  dmini p.1 (if p.2 ≤ p.1 then p.1 + 1 else p.2)

/-- The `for iteration in range(max_iterations)` loop of `_recalc`
(lines 1510-1555), fuelled: returns the final `(d, Dm)` state and the number
of iterations executed (the loop breaks at the first converged iteration). -/
def recalcLoop (dmini : ℚ → ℚ → ℚ) (all_diameters : List ℚ)
    (target_diameter : ℚ) (diameter_type : DiameterType) :
    Nat → ℚ × ℚ → (ℚ × ℚ) × Nat
  | 0, p => (p, 0)
  | k + 1, p =>
    if recalcConv dmini all_diameters target_diameter diameter_type p then
      (recalcStep dmini all_diameters target_diameter diameter_type p, 1)
    else
      ((recalcLoop dmini all_diameters target_diameter diameter_type k
          (recalcStep dmini all_diameters target_diameter diameter_type p)).1,
       (recalcLoop dmini all_diameters target_diameter diameter_type k
          (recalcStep dmini all_diameters target_diameter diameter_type p)).2 + 1)

/-- The whole convergence phase of `_recalc` (lines 1504-1555): the initial
`Dm` estimate of line 1508 followed by the bounded loop. -/
def recalc_converge (dmini : ℚ → ℚ → ℚ) (all_diameters : List ℚ)
    (target_diameter : ℚ) (diameter_type : DiameterType) (d0 : ℚ) :
    (ℚ × ℚ) × Nat :=
  recalcLoop dmini all_diameters target_diameter diameter_type max_iterations
    (d0, compute_Dm_from_target target_diameter diameter_type d0)

/-- Lines 1494-1498 of `_recalc`: the dead-turn count used in the
computation is forced to `0` for the end types "COUPEES" and "MEULEES",
and is the requested `nm` otherwise. -/
def nm_reel_calc (end_type : String) (nm : ℚ) : ℚ :=
  if end_type = "COUPEES" ∨ end_type = "MEULEES" then 0 else nm

/-- `SpringCalculatorDialog._on_end_type_changed` (lines 1407-1424), effect
on the `nm` spin box value: `0` (and the box disabled) for "COUPEES" /
"MEULEES"; otherwise raised to the end type's minimum dead-coil count when
below it (the handler also installs that minimum on the widget). -/
def on_end_type_changed_nm (end_type : String) (nm nm_min : ℚ) : ℚ :=
  if end_type = "COUPEES" ∨ end_type = "MEULEES" then 0
  else if nm < nm_min then nm_min else nm

/-- Lines 1609-1621 of `_recalc`: total turn count `nt` and realized solid
length `Lc_reel` from the solid-length cap, the wire diameter and the
"ground" flag of the end type; `nt` is the cap divided by the wire diameter
rounded down to a quarter turn. -/
def nt_Lc_calc (is_ground : Bool) (Lc_max d : ℚ) : ℚ × ℚ :=
  if 0 < d then
    let nt_quarter : ℚ := (⌊4 * Lc_max / d⌋ : ℚ) / 4
    if is_ground then (nt_quarter, nt_quarter * d)
    else (nt_quarter - 1, (nt_quarter - 1 + 1) * d)
  else (1, d)

/-- Line 1623 of `_recalc`: active turns `n = max(0.5, nt - 2 * nm_reel)`. -/
def n_active_calc (nt nm_reel : ℚ) : ℚ :=
  max 0.5 (nt - 2 * nm_reel)

/-- Line 1570 of `_recalc`: real shear stress, `0` when `d ≤ 0`. -/
def tau_reel_calc (coef_k F Dm d : ℚ) : ℚ :=
  if 0 < d then coef_k * 2.55 * F * Dm / d ^ 3 else 0

/-- Line 1602 of `_recalc`: percentage utilization, `0` when the effective
allowable stress is not positive. -/
def pct_travail_calc (tau_reel tau_adm_eff : ℚ) : ℚ :=
  if 0 < tau_adm_eff then tau_reel / tau_adm_eff * 100 else 0

/-- Line 1625 of `_recalc`: spring rate, `0` unless `Dm > 0` and `n > 0`. -/
def R_calc (G d Dm n : ℚ) : ℚ :=
  if 0 < Dm ∧ 0 < n then G * d ^ 4 / (8 * Dm ^ 3 * n) else 0

/-- Line 1626 of `_recalc`: deflection `f = F / R`, `0` when `R ≤ 0`. -/
def f_calc (F R : ℚ) : ℚ :=
  if 0 < R then F / R else 0

/-- Line 1627 of `_recalc`: free length `L0 = H_charge + f`. -/
def L0_calc (H_charge f : ℚ) : ℚ :=
  H_charge + f

/-- One row of a material's `tensile_strength_Rm.table`: the Python code
indexes `row["d_min"]` and `row["d_max"]` directly (so those fields are
required) and reads `row.get("Rm_daN", 150)` (optional). -/
structure RmRow where
  d_min : ℚ
  d_max : ℚ
  Rm_daN : Option ℚ
deriving DecidableEq

/-- One entry of a material's `stress_limits` map: only its optional
`factor` field is read by the engine. -/
structure StressLimit where
  factor : Option ℚ
deriving DecidableEq

/-- A material entry of the materials table.  The nested-dict paths read by
the engine are flattened: `shear_modulus_G.value_daN` is present exactly
when both levels are, and similarly for `tensile_strength_Rm.table`; a
missing `stress_limits` dict behaves exactly like an empty one and is
modelled as the empty list. -/
structure Material where
  shear_modulus_G_value_daN : Option ℚ
  tensile_strength_Rm_table : Option (List RmRow)
  stress_limits : List (String × StressLimit)
deriving DecidableEq

/-- The `dead_coils` sub-dict of an end-type entry: only its optional
`minimum` field is read. -/
structure DeadCoils where
  minimum : Option ℚ
deriving DecidableEq

/-- An end-type entry: `get_end_types` keeps only entries that carry a
`dead_coils` key, and `grinding_required` defaults to `False`. -/
structure EndTypeEntry where
  dead_coils : Option DeadCoils
  grinding_required : Option Bool
deriving DecidableEq

/-- The reference data held by `DatabaseManager` (lines 506-629).  Each
field is `none` when the corresponding backing table (or its top-level key)
is absent; Python's preserved-insertion-order dicts are embedded as
association lists.  `standard_wire_diameters_all` flattens the path
`standard_wire_diameters.all_diameters` of the diameters table. -/
structure Database where
  materials : Option (List (String × Material))
  end_types : Option (List (String × EndTypeEntry))
  standard_wire_diameters_all : Option (List ℚ)
deriving DecidableEq

/-- `DatabaseManager.get_material` (lines 506-507). -/
def get_material (db : Database) (name : String) : Option Material :=
  (db.materials.getD []).lookup name

/-- `DatabaseManager.get_module_G` (lines 509-513): shear modulus with
fallback `8150`. -/
def get_module_G (db : Database) (name : String) : ℚ :=
  match get_material db name with
  | some mat => mat.shear_modulus_G_value_daN.getD 8150
  | none => 8150

/-- `DatabaseManager.get_Rm` (lines 515-527): tensile strength looked up in
the first table row whose `[d_min, d_max)` range holds `d`, falling back to
the last row for out-of-range diameters, to `150` for a row without an
`Rm_daN` field, and to `150.0` for a missing material or empty table. -/
def get_Rm (db : Database) (name : String) (d : ℚ) : ℚ :=
  match get_material db name with
  | none => 150.0
  | some mat =>
    let table := mat.tensile_strength_Rm_table.getD []
    match table.find? (fun row => decide (row.d_min ≤ d ∧ d < row.d_max)) with
    | some row => row.Rm_daN.getD 150
    | none =>
      match table.getLast? with
      | some row => row.Rm_daN.getD 150
      | none => 150.0

/-- `DatabaseManager.get_stress_factor` (lines 529-533): allowable-stress
factor for a service key, fallback `0.40`. -/
def get_stress_factor (db : Database) (material_name service_key : String) : ℚ :=
  match get_material db material_name with
  | some mat =>
    match mat.stress_limits.lookup service_key with
    | some sl => sl.factor.getD 0.40
    | none => 0.40
  | none => 0.40

/-- `DatabaseManager.get_set_solid_factor` (lines 535-539): set-to-solid
stress factor, fallback `0.80`. -/
def get_set_solid_factor (db : Database) (material_name : String) : ℚ :=
  match get_material db material_name with
  | some mat =>
    match mat.stress_limits.lookup "set_solid" with
    | some sl => sl.factor.getD 0.80
    | none => 0.80
  | none => 0.80

/-- `DatabaseManager.get_end_types` (lines 582-584): the end-type entries
that carry a `dead_coils` key. -/
def get_end_types (db : Database) : List (String × EndTypeEntry) :=
  (db.end_types.getD []).filter (fun kv => kv.2.dead_coils.isSome)

/-- `DatabaseManager.get_dead_coils_min` (lines 622-624): minimum dead-coil
count of an end type, fallback `2.0`. -/
def get_dead_coils_min (db : Database) (end_type_name : String) : ℚ :=
  match (get_end_types db).lookup end_type_name with
  | some et =>
    match et.dead_coils with
    | some dc => dc.minimum.getD 2.0
    | none => 2.0
  | none => 2.0

/-- `DatabaseManager.is_ground_type` (lines 626-629): grinding flag of an
end type, fallback `False`. -/
def is_ground_type (db : Database) (end_type_name : String) : Bool :=
  match (get_end_types db).lookup end_type_name with
  | some et => et.grinding_required.getD false
  | none => false

/-- `DatabaseManager.get_wire_diameters` (lines 578-580): the ordered
wire-diameter domain, with its hard-coded fallback list. -/
def get_wire_diameters (db : Database) : List ℚ :=
  db.standard_wire_diameters_all.getD [1.0, 1.5, 2.0, 2.5, 3.0, 4.0, 5.0, 6.0]

/-- `get_coef_bergstrasser` (lines 636-640): the Bergsträsser stress
correction factor of the spring index. -/
noncomputable def get_coef_bergstrasser (c : ℝ) : ℝ :=
  if c ≤ 0.75 then 2.0 else (c + 0.5) / (c - 0.75)

/-- Lines 1520-1525 of `_recalc`: the stress correction coefficient
`coef_k`, equal to `K` for the severe service class and `1.0` otherwise. -/
noncomputable def coef_k_calc (is_severe : Bool) (K : ℝ) : ℝ :=
  if is_severe then K else 1.0

/-- Lines 1520-1525 of `_recalc`: the effective allowable stress,
`tau_adm / K` for the severe service class (when `K > 0`), `tau_adm`
otherwise. -/
noncomputable def tau_adm_eff_calc (is_severe : Bool) (tau_adm K : ℝ) : ℝ :=
  if is_severe then (if 0 < K then tau_adm / K else tau_adm) else tau_adm

/-- Lines 1527-1532 of `_recalc`: the minimum admissible wire diameter
`d_mini = (coef_k * 2.55 * F * Dm / tau_adm_eff) ** (1/3)` guarded by
`tau_adm_eff > 0 and Dm > 0 and F > 0` and by `val > 0`, `0` otherwise. -/
noncomputable def d_mini_calc (coef_k F Dm tau_adm_eff : ℝ) : ℝ :=
  if 0 < tau_adm_eff ∧ 0 < Dm ∧ 0 < F then
    if 0 < coef_k * 2.55 * F * Dm / tau_adm_eff then
      (coef_k * 2.55 * F * Dm / tau_adm_eff) ^ ((1 : ℝ) / 3)
    else 0
  else 0

/-! Helper lemmas about the wire-diameter filtering and the loop. -/

theorem filter_diameters_ne_nil (all_diameters : List ℚ) (d_mini : ℚ)
    (h : all_diameters ≠ []) : filter_diameters all_diameters d_mini ≠ [] := by
  unfold filter_diameters
  cases he : (all_diameters.filter (fun x => decide (d_mini ≤ x))).isEmpty with
  | true =>
    simp only [he, if_true]
    by_cases h5 : 5 ≤ all_diameters.length
    · simp only [h5, if_true]
      intro hnil
      rw [List.drop_eq_nil_iff] at hnil
      omega
    · simp only [h5, if_false]
      exact h
  | false =>
    simp only [he, Bool.false_eq_true, if_false]
    intro hnil
    rw [hnil] at he
    simp at he

theorem select_diameter_mem (all_diameters : List ℚ) (d_mini current_d : ℚ)
    (h : all_diameters ≠ []) :
    select_diameter all_diameters d_mini current_d ∈
      filter_diameters all_diameters d_mini := by
  have hne := filter_diameters_ne_nil all_diameters d_mini h
  unfold select_diameter
  by_cases hc : d_mini ≤ current_d ∧ current_d ∈ filter_diameters all_diameters d_mini
  · simp only [if_pos hc]
    exact hc.2
  · simp only [if_neg hc]
    cases hfd : filter_diameters all_diameters d_mini with
    | nil => exact absurd hfd hne
    | cons a l => simp [List.headD]

theorem recalcLoop_count_le (dmini : ℚ → ℚ → ℚ) (all_diameters : List ℚ)
    (target_diameter : ℚ) (diameter_type : DiameterType) (k : Nat) :
    ∀ p, (recalcLoop dmini all_diameters target_diameter diameter_type k p).2 ≤ k := by
  induction k with
  | zero => intro p; simp [recalcLoop]
  | succ n ih =>
    intro p
    cases hc : recalcConv dmini all_diameters target_diameter diameter_type p with
    | true => simp [recalcLoop, hc]
    | false =>
      simp only [recalcLoop, hc, Bool.false_eq_true, if_false]
      exact Nat.succ_le_succ (ih _)

theorem recalcLoop_count_pos (dmini : ℚ → ℚ → ℚ) (all_diameters : List ℚ)
    (target_diameter : ℚ) (diameter_type : DiameterType) (k : Nat) (hk : 0 < k) :
    ∀ p, 1 ≤ (recalcLoop dmini all_diameters target_diameter diameter_type k p).2 := by
  cases k with
  | zero => exact absurd hk (by omega)
  | succ n =>
    intro p
    cases hc : recalcConv dmini all_diameters target_diameter diameter_type p with
    | true => simp [recalcLoop, hc]
    | false =>
      simp only [recalcLoop, hc, Bool.false_eq_true, if_false]
      omega

theorem recalcLoop_fst_eq (dmini : ℚ → ℚ → ℚ) (all_diameters : List ℚ)
    (target_diameter : ℚ) (diameter_type : DiameterType) (k : Nat) :
    ∀ p, (recalcLoop dmini all_diameters target_diameter diameter_type k p).1 =
      (recalcStep dmini all_diameters target_diameter diameter_type)^[
        (recalcLoop dmini all_diameters target_diameter diameter_type k p).2] p := by
  induction k with
  | zero => intro p; simp [recalcLoop]
  | succ n ih =>
    intro p
    cases hc : recalcConv dmini all_diameters target_diameter diameter_type p with
    | true => simp [recalcLoop, hc]
    | false =>
      simp only [recalcLoop, hc, Bool.false_eq_true, if_false]
      rw [Function.iterate_succ_apply]
      exact ih _

theorem recalcLoop_not_conv (dmini : ℚ → ℚ → ℚ) (all_diameters : List ℚ)
    (target_diameter : ℚ) (diameter_type : DiameterType) (k : Nat) :
    ∀ p i, i + 1 < (recalcLoop dmini all_diameters target_diameter diameter_type k p).2 →
      recalcConv dmini all_diameters target_diameter diameter_type
        ((recalcStep dmini all_diameters target_diameter diameter_type)^[i] p) = false := by
  induction k with
  | zero => intro p i h; simp [recalcLoop] at h
  | succ n ih =>
    intro p i h
    cases hc : recalcConv dmini all_diameters target_diameter diameter_type p with
    | true =>
      simp only [recalcLoop, hc, if_true] at h
      omega
    | false =>
      simp only [recalcLoop, hc, Bool.false_eq_true, if_false] at h
      cases i with
      | zero => simpa using hc
      | succ j =>
        rw [Function.iterate_succ_apply]
        exact ih _ j (by omega)

theorem recalcLoop_early_conv (dmini : ℚ → ℚ → ℚ) (all_diameters : List ℚ)
    (target_diameter : ℚ) (diameter_type : DiameterType) (k : Nat) :
    ∀ p, (recalcLoop dmini all_diameters target_diameter diameter_type k p).2 < k →
      recalcConv dmini all_diameters target_diameter diameter_type
        ((recalcStep dmini all_diameters target_diameter diameter_type)^[
          (recalcLoop dmini all_diameters target_diameter diameter_type k p).2 - 1] p) = true := by
  induction k with
  | zero => intro p h; simp [recalcLoop] at h
  | succ n ih =>
    intro p h
    cases hc : recalcConv dmini all_diameters target_diameter diameter_type p with
    | true => simp [recalcLoop, hc]
    | false =>
      simp only [recalcLoop, hc, Bool.false_eq_true, if_false] at h ⊢
      have hlt : (recalcLoop dmini all_diameters target_diameter diameter_type n
          (recalcStep dmini all_diameters target_diameter diameter_type p)).2 < n := by omega
      have h1 : 1 ≤ (recalcLoop dmini all_diameters target_diameter diameter_type n
          (recalcStep dmini all_diameters target_diameter diameter_type p)).2 :=
        recalcLoop_count_pos dmini all_diameters target_diameter diameter_type n (by omega) _
      have hrec := ih (recalcStep dmini all_diameters target_diameter diameter_type p) hlt
      rw [show (recalcLoop dmini all_diameters target_diameter diameter_type n
          (recalcStep dmini all_diameters target_diameter diameter_type p)).2 + 1 - 1 =
        ((recalcLoop dmini all_diameters target_diameter diameter_type n
          (recalcStep dmini all_diameters target_diameter diameter_type p)).2 - 1) + 1 by omega]
      rw [Function.iterate_succ_apply]
      exact hrec

/-- Claim C1: for every valid input set (target diameter, diameter-type,
load, material, service, starting wire diameter — all of which enter the
loop only through the `dmini` function, the target diameter and its type),
the convergence loop of `_recalc` executes between 1 and 10 iterations; it
exits early (fewer than 10 iterations) exactly when the convergence test
`|d_new - d| < 0.001 ∧ |Dm_new - Dm| < 0.001` first holds at the iteration
it stops at (it never stops at an iteration whose test fails, and whenever
it stops before the cap the test of its last iteration holds); and the wire
diameter it ends with is an element of the wire-diameter domain as filtered
during the last executed iteration of the loop. -/
theorem c1_convergence_loop (dmini : ℚ → ℚ → ℚ) (all_diameters : List ℚ)
    (target_diameter : ℚ) (diameter_type : DiameterType) (d0 : ℚ)
    (hall : all_diameters ≠ [])
    (p0 : ℚ × ℚ)
    (hp0 : p0 = (d0, compute_Dm_from_target target_diameter diameter_type d0))
    (res : (ℚ × ℚ) × Nat)
    (hres : res = recalc_converge dmini all_diameters target_diameter diameter_type d0) :
    1 ≤ res.2 ∧ res.2 ≤ max_iterations ∧
    res.1 = (recalcStep dmini all_diameters target_diameter diameter_type)^[res.2] p0 ∧
    (∀ i, i + 1 < res.2 →
      recalcConv dmini all_diameters target_diameter diameter_type
        ((recalcStep dmini all_diameters target_diameter diameter_type)^[i] p0) = false) ∧
    (res.2 < max_iterations →
      recalcConv dmini all_diameters target_diameter diameter_type
        ((recalcStep dmini all_diameters target_diameter diameter_type)^[res.2 - 1] p0) = true) ∧
    res.1.1 ∈ filter_diameters all_diameters
      (dmini_at dmini
        ((recalcStep dmini all_diameters target_diameter diameter_type)^[res.2 - 1] p0)) := by
  subst hres hp0
  unfold recalc_converge
  refine ⟨?_, ?_, ?_, ?_, ?_, ?_⟩
  · exact recalcLoop_count_pos dmini all_diameters target_diameter diameter_type
      max_iterations (by norm_num [max_iterations]) _
  · exact recalcLoop_count_le dmini all_diameters target_diameter diameter_type
      max_iterations _
  · exact recalcLoop_fst_eq dmini all_diameters target_diameter diameter_type
      max_iterations _
  · exact fun i hi => recalcLoop_not_conv dmini all_diameters target_diameter
      diameter_type max_iterations _ i hi
  · exact recalcLoop_early_conv dmini all_diameters target_diameter diameter_type
      max_iterations _
  · have h1 : 1 ≤ (recalcLoop dmini all_diameters target_diameter diameter_type
        max_iterations (d0, compute_Dm_from_target target_diameter diameter_type d0)).2 :=
      recalcLoop_count_pos dmini all_diameters target_diameter diameter_type
        max_iterations (by norm_num [max_iterations]) _
    rw [recalcLoop_fst_eq dmini all_diameters target_diameter diameter_type
        max_iterations _]
    rw [show (recalcLoop dmini all_diameters target_diameter diameter_type
        max_iterations (d0, compute_Dm_from_target target_diameter diameter_type d0)).2 =
      ((recalcLoop dmini all_diameters target_diameter diameter_type
        max_iterations (d0, compute_Dm_from_target target_diameter diameter_type d0)).2 - 1)
        + 1 by omega]
    rw [Function.iterate_succ_apply']
    exact select_diameter_mem all_diameters _ _ hall

/-- Concrete instantiation of `c1_convergence_loop` discharging its
hypotheses. -/
theorem c1_convergence_loop_witness :
    ([(1 : ℚ)] ≠ []) ∧
    1 ≤ (recalc_converge (fun _ _ => 0) [1] 5 DiameterType.mean 1).2 ∧
    (recalc_converge (fun _ _ => 0) [1] 5 DiameterType.mean 1).2 ≤ max_iterations :=
  ⟨by simp,
   (c1_convergence_loop (fun _ _ => 0) [1] 5 DiameterType.mean 1 (by simp)
      (1, compute_Dm_from_target 5 DiameterType.mean 1) rfl
      (recalc_converge (fun _ _ => 0) [1] 5 DiameterType.mean 1) rfl).1,
   (c1_convergence_loop (fun _ _ => 0) [1] 5 DiameterType.mean 1 (by simp)
      (1, compute_Dm_from_target 5 DiameterType.mean 1) rfl
      (recalc_converge (fun _ _ => 0) [1] 5 DiameterType.mean 1) rfl).2.1⟩

/-- Claim C3: re-tagging the diameter type is a round trip holding the mean
diameter invariant.  Projecting `Dm` onto the "inner" tag (`Dm - d`) and
recovering it back under the "inner" reading of the target (`target + d`)
returns the original `Dm` within 1e-6; and for every transition among
mean/inner/outer, the mean diameter recovered from the new tag and the new
displayed value produced by `_on_diameter_type_changed` equals the mean
diameter recovered from the old tag and the old displayed value. -/
theorem c3_diameter_type_round_trip (Dm d current_value : ℚ)
    (old_type new_type : DiameterType) :
    |compute_Dm_from_target (project_Dm_to_type DiameterType.inner Dm d)
        DiameterType.inner d - Dm| < 1/1000000 ∧
    compute_Dm_from_target
        (on_diameter_type_changed old_type new_type current_value d)
        new_type d =
      compute_Dm_from_target current_value old_type d := by
  constructor
  · simp only [project_Dm_to_type, compute_Dm_from_target]
    rw [show Dm - d + d - Dm = 0 by ring]
    norm_num
  · by_cases heq : old_type = new_type
    · subst heq
      simp [on_diameter_type_changed]
    · cases old_type <;> cases new_type <;>
        simp [on_diameter_type_changed, project_Dm_to_type,
          compute_Dm_from_target]

/-- Claim C5: for every wire diameter `d > 0` and solid-length cap, the
total turn count is derived from `nt_quarter = floor(4 * Lc_max / d) / 4`;
a ground end type takes `nt = nt_quarter` with `Lc_reel = nt * d`, a
non-ground end type takes `nt = nt_quarter - 1` with
`Lc_reel = (nt + 1) * d`; and the active turn count is
`max(0.5, nt - 2 * nm_reel)`, hence never below half a turn. -/
theorem c5_turn_derivation (Lc_max d nm_reel : ℚ) (hd : 0 < d) :
    (nt_Lc_calc true Lc_max d).1 = (⌊4 * Lc_max / d⌋ : ℚ) / 4 ∧
    (nt_Lc_calc true Lc_max d).2 = (nt_Lc_calc true Lc_max d).1 * d ∧
    (nt_Lc_calc false Lc_max d).1 = (⌊4 * Lc_max / d⌋ : ℚ) / 4 - 1 ∧
    (nt_Lc_calc false Lc_max d).2 = ((nt_Lc_calc false Lc_max d).1 + 1) * d ∧
    (∀ nt, n_active_calc nt nm_reel = max 0.5 (nt - 2 * nm_reel) ∧
      0.5 ≤ n_active_calc nt nm_reel) :=
  ⟨by simp [nt_Lc_calc, hd],
   by simp [nt_Lc_calc, hd],
   by simp [nt_Lc_calc, hd],
   by simp [nt_Lc_calc, hd],
   fun nt => ⟨rfl, le_max_left 0.5 (nt - 2 * nm_reel)⟩⟩

/-- Concrete instantiation of `c5_turn_derivation` discharging its
hypothesis. -/
theorem c5_turn_derivation_witness :
    (0 : ℚ) < 4 ∧
    (nt_Lc_calc true 60 4).1 = (⌊4 * (60 : ℚ) / 4⌋ : ℚ) / 4 ∧
    (0.5 : ℚ) ≤ n_active_calc 15 3 :=
  ⟨by norm_num,
   (c5_turn_derivation 60 4 3 (by norm_num)).1,
   ((c5_turn_derivation 60 4 3 (by norm_num)).2.2.2.2 15).2⟩

/-- Claim C6: for the end types with no dead coils ("COUPEES" and
"MEULEES"), the dead-turn count used in the computation is `0` whatever the
requested `nm`; for every other end type, the dead-turn count obtained from
the `nm` value as adjusted by `_on_end_type_changed` equals the requested
`nm` clamped to at least the end type's minimum dead-coil count. -/
theorem c6_dead_turns (nm nm_min : ℚ) (end_type : String) :
    (nm_reel_calc "COUPEES" nm = 0 ∧ nm_reel_calc "MEULEES" nm = 0) ∧
    (end_type ≠ "COUPEES" → end_type ≠ "MEULEES" →
      nm_reel_calc end_type (on_end_type_changed_nm end_type nm nm_min) =
        max nm nm_min ∧
      nm_min ≤ nm_reel_calc end_type (on_end_type_changed_nm end_type nm nm_min)) := by
  refine ⟨⟨by simp [nm_reel_calc], by simp [nm_reel_calc]⟩, ?_⟩
  intro h1 h2
  have hno : ¬ (end_type = "COUPEES" ∨ end_type = "MEULEES") := by
    rintro (h | h) <;> [exact h1 h; exact h2 h]
  constructor
  · simp only [nm_reel_calc, on_end_type_changed_nm, if_neg hno]
    by_cases hlt : nm < nm_min
    · rw [if_pos hlt, max_eq_right (le_of_lt hlt)]
    · rw [if_neg hlt, max_eq_left (le_of_not_lt hlt)]
  · simp only [nm_reel_calc, on_end_type_changed_nm, if_neg hno]
    by_cases hlt : nm < nm_min
    · rw [if_pos hlt]
    · rw [if_neg hlt]
      exact le_of_not_lt hlt

/-- Concrete instantiation of `c6_dead_turns` discharging its
hypotheses. -/
theorem c6_dead_turns_witness :
    ("RAPPROCHEES" ≠ "COUPEES") ∧
    nm_reel_calc "RAPPROCHEES" (on_end_type_changed_nm "RAPPROCHEES" 1 2) = max 1 2 :=
  ⟨by decide,
   ((c6_dead_turns 1 2 "RAPPROCHEES").2 (by decide) (by decide)).1⟩

/-- Claim C8: every division-prone derived quantity of `_recalc` is total
and degrades to `0` instead of failing: the real stress when `d ≤ 0`, the
utilization when `tau_adm_eff ≤ 0`, the spring rate when `Dm ≤ 0` or
`n ≤ 0`, the deflection when `R ≤ 0`; and the free length is always
`H_charge + f`. -/
theorem c8_guarded_formulas (coef_k F Dm d tau_adm_eff G n H_charge R tau : ℚ) :
    (0 < d → tau_reel_calc coef_k F Dm d = coef_k * 2.55 * F * Dm / d ^ 3) ∧
    (¬ 0 < d → tau_reel_calc coef_k F Dm d = 0) ∧
    (0 < tau_adm_eff → pct_travail_calc tau tau_adm_eff = tau / tau_adm_eff * 100) ∧
    (¬ 0 < tau_adm_eff → pct_travail_calc tau tau_adm_eff = 0) ∧
    (0 < Dm → 0 < n → R_calc G d Dm n = G * d ^ 4 / (8 * Dm ^ 3 * n)) ∧
    (¬ (0 < Dm ∧ 0 < n) → R_calc G d Dm n = 0) ∧
    (0 < R → f_calc F R = F / R) ∧
    (¬ 0 < R → f_calc F R = 0) ∧
    L0_calc H_charge (f_calc F R) = H_charge + f_calc F R :=
  ⟨fun h => by rw [tau_reel_calc, if_pos h],
   fun h => by rw [tau_reel_calc, if_neg h],
   fun h => by rw [pct_travail_calc, if_pos h],
   fun h => by rw [pct_travail_calc, if_neg h],
   fun h1 h2 => by rw [R_calc, if_pos ⟨h1, h2⟩],
   fun h => by rw [R_calc, if_neg h],
   fun h => by rw [f_calc, if_pos h],
   fun h => by rw [f_calc, if_neg h],
   rfl⟩

/-- Concrete instantiation of `c8_guarded_formulas` discharging its
hypotheses. -/
theorem c8_guarded_formulas_witness :
    (0 : ℚ) < 2 ∧
    tau_reel_calc 1 30 20 2 = 1 * 2.55 * 30 * 20 / 2 ^ 3 ∧
    tau_reel_calc 1 30 20 0 = 0 :=
  ⟨by norm_num,
   (c8_guarded_formulas 1 30 20 2 1 8150 5 80 1 100).1 (by norm_num),
   (c8_guarded_formulas 1 30 20 0 1 8150 5 80 1 100).2.1 (by norm_num)⟩

/-- Claim C10: with a positive wire diameter, both the ground and the
non-ground branch realize the solid length
`(floor(4 * Lc_max / d) / 4) * d`, which never exceeds the user's cap, so
the `Lc_reel > Lc_max` alert condition of line 1659 is unreachable. -/
theorem c10_solid_length_cap (Lc_max d : ℚ) (is_ground : Bool) (hd : 0 < d) :
    (nt_Lc_calc is_ground Lc_max d).2 = (⌊4 * Lc_max / d⌋ : ℚ) / 4 * d ∧
    (nt_Lc_calc is_ground Lc_max d).2 ≤ Lc_max ∧
    ¬ (Lc_max < (nt_Lc_calc is_ground Lc_max d).2) := by
  have hd' : d ≠ 0 := ne_of_gt hd
  have heq : (nt_Lc_calc is_ground Lc_max d).2 = (⌊4 * Lc_max / d⌋ : ℚ) / 4 * d := by
    cases is_ground <;> simp [nt_Lc_calc, hd]
  have hle : (⌊4 * Lc_max / d⌋ : ℚ) / 4 * d ≤ Lc_max := by
    have h1 : (⌊4 * Lc_max / d⌋ : ℚ) ≤ 4 * Lc_max / d := Int.floor_le _
    have h2 : (⌊4 * Lc_max / d⌋ : ℚ) / 4 * d ≤ (4 * Lc_max / d) / 4 * d := by
      gcongr
    have h3 : (4 * Lc_max / d) / 4 * d = Lc_max := by
      field_simp
      ring
    rw [h3] at h2
    exact h2
  exact ⟨heq, heq ▸ hle, not_lt.mpr (heq ▸ hle)⟩

/-- Concrete instantiation of `c10_solid_length_cap` discharging its
hypothesis. -/
theorem c10_solid_length_cap_witness :
    (0 : ℚ) < 4 ∧ (nt_Lc_calc false 60 4).2 ≤ 60 :=
  ⟨by norm_num, (c10_solid_length_cap 60 4 false (by norm_num)).2.1⟩

/-- Claim C9: every reference-data lookup is total (each accessor is a
total Lean function) and degrades to its documented fallback constant when
the material key, service key, end-type key, or backing table is absent:
shear modulus `8150`, tensile strength `150.0`, allowable-stress factor
`0.40`, set-to-solid factor `0.80`, minimum dead-coil count `2.0`; no
lookup raises for a missing reference entry. -/
theorem c9_lookup_fallbacks (db : Database) (name service_key end_type_name : String)
    (d : ℚ) :
    (db.materials = none → get_material db name = none) ∧
    (get_material db name = none →
      get_module_G db name = 8150 ∧
      get_Rm db name d = 150.0 ∧
      get_stress_factor db name service_key = 0.40 ∧
      get_set_solid_factor db name = 0.80) ∧
    (∀ mat, get_material db name = some mat →
      mat.shear_modulus_G_value_daN = none → get_module_G db name = 8150) ∧
    (∀ mat, get_material db name = some mat →
      mat.stress_limits.lookup service_key = none →
      get_stress_factor db name service_key = 0.40) ∧
    (∀ mat, get_material db name = some mat →
      mat.stress_limits.lookup "set_solid" = none →
      get_set_solid_factor db name = 0.80) ∧
    (db.end_types = none → (get_end_types db).lookup end_type_name = none) ∧
    ((get_end_types db).lookup end_type_name = none →
      get_dead_coils_min db end_type_name = 2.0) ∧
    (∀ et, (get_end_types db).lookup end_type_name = some et →
      et.dead_coils = none ∨ (∀ dc, et.dead_coils = some dc → dc.minimum = none) →
      get_dead_coils_min db end_type_name = 2.0) := by
  refine ⟨?_, ?_, ?_, ?_, ?_, ?_, ?_, ?_⟩
  · intro h
    simp [get_material, h]
  · intro h
    refine ⟨?_, ?_, ?_, ?_⟩
    · simp [get_module_G, h]
    · simp [get_Rm, h]
    · simp [get_stress_factor, h]
    · simp [get_set_solid_factor, h]
  · intro mat hmat hG
    simp [get_module_G, hmat, hG]
  · intro mat hmat hsl
    simp [get_stress_factor, hmat, hsl]
  · intro mat hmat hsl
    simp [get_set_solid_factor, hmat, hsl]
  · intro h
    simp [get_end_types, h]
  · intro h
    simp [get_dead_coils_min, h]
  · intro et het hdc
    cases hdc with
    | inl h => simp [get_dead_coils_min, het, h]
    | inr h =>
      cases hdc2 : et.dead_coils with
      | none => simp [get_dead_coils_min, het, hdc2]
      | some dc => simp [get_dead_coils_min, het, hdc2, h dc hdc2]

/-- Concrete instantiation of `c9_lookup_fallbacks` on an empty database,
discharging its hypotheses. -/
theorem c9_lookup_fallbacks_witness :
    get_material ⟨none, none, none⟩ "CORDE A PIANO" = none ∧
    get_module_G ⟨none, none, none⟩ "CORDE A PIANO" = 8150 ∧
    get_Rm ⟨none, none, none⟩ "CORDE A PIANO" 4 = 150.0 ∧
    get_stress_factor ⟨none, none, none⟩ "CORDE A PIANO" "severe_dynamic" = 0.40 ∧
    get_set_solid_factor ⟨none, none, none⟩ "CORDE A PIANO" = 0.80 ∧
    get_dead_coils_min ⟨none, none, none⟩ "RAPPROCHEES" = 2.0 :=
  ⟨rfl,
   ((c9_lookup_fallbacks ⟨none, none, none⟩ "CORDE A PIANO" "severe_dynamic"
      "RAPPROCHEES" 4).2.1 rfl).1,
   ((c9_lookup_fallbacks ⟨none, none, none⟩ "CORDE A PIANO" "severe_dynamic"
      "RAPPROCHEES" 4).2.1 rfl).2.1,
   ((c9_lookup_fallbacks ⟨none, none, none⟩ "CORDE A PIANO" "severe_dynamic"
      "RAPPROCHEES" 4).2.1 rfl).2.2.1,
   ((c9_lookup_fallbacks ⟨none, none, none⟩ "CORDE A PIANO" "severe_dynamic"
      "RAPPROCHEES" 4).2.1 rfl).2.2.2,
   (c9_lookup_fallbacks ⟨none, none, none⟩ "CORDE A PIANO" "severe_dynamic"
      "RAPPROCHEES" 4).2.2.2.2.2.2.1 rfl⟩

/-- The Bergsträsser factor is always positive. -/
theorem get_coef_bergstrasser_pos (c : ℝ) : 0 < get_coef_bergstrasser c := by
  unfold get_coef_bergstrasser
  by_cases h : c ≤ 0.75
  · rw [if_pos h]
    norm_num
  · rw [if_neg h]
    push_neg at h
    apply div_pos <;> nlinarith

/-- Claim C4: the Bergsträsser factor is the total function equal to `2.0`
for every spring index `c ≤ 0.75` and to `(c + 0.5) / (c - 0.75)` for every
`c > 0.75`, defined for every real input with no failure mode. -/
theorem c4_bergstrasser_total (c : ℝ) :
    (c ≤ 0.75 → get_coef_bergstrasser c = 2.0) ∧
    (0.75 < c → get_coef_bergstrasser c = (c + 0.5) / (c - 0.75)) :=
  ⟨fun h => by rw [get_coef_bergstrasser, if_pos h],
   fun h => by rw [get_coef_bergstrasser, if_neg (not_le.mpr h)]⟩

/-- Concrete instantiation of `c4_bergstrasser_total` discharging its
hypotheses, at the clamp boundary and inside the generic branch. -/
theorem c4_bergstrasser_total_witness :
    ((0.75 : ℝ) ≤ 0.75 ∧ get_coef_bergstrasser 0.75 = 2.0) ∧
    ((0.75 : ℝ) < 1 ∧ get_coef_bergstrasser 1 = (1 + 0.5) / (1 - 0.75)) :=
  ⟨⟨le_refl _, (c4_bergstrasser_total 0.75).1 (le_refl _)⟩,
   ⟨by norm_num, (c4_bergstrasser_total 1).2 (by norm_num)⟩⟩

/-- Claim C2: in every iteration, the minimum admissible wire diameter
equals `(coef_k * 2.55 * F * Dm / tau_adm_eff) ** (1/3)` when
`tau_adm_eff > 0`, `Dm > 0` and `F > 0`, and `0` otherwise; where for the
severe service class `coef_k = K` and `tau_adm_eff = tau_adm / K` (for
`K > 0`), and otherwise `coef_k = 1` and `tau_adm_eff = tau_adm`, with
`K` the Bergsträsser factor of the iteration's spring index. -/
theorem c2_d_mini_formula (is_severe : Bool) (c Rm stress_factor F Dm : ℝ) :
    (0 < tau_adm_eff_calc is_severe (Rm * stress_factor) (get_coef_bergstrasser c) →
     0 < Dm → 0 < F →
      d_mini_calc (coef_k_calc is_severe (get_coef_bergstrasser c)) F Dm
          (tau_adm_eff_calc is_severe (Rm * stress_factor) (get_coef_bergstrasser c)) =
        (coef_k_calc is_severe (get_coef_bergstrasser c) * 2.55 * F * Dm /
          tau_adm_eff_calc is_severe (Rm * stress_factor) (get_coef_bergstrasser c)) ^
          ((1 : ℝ) / 3)) ∧
    (¬ (0 < tau_adm_eff_calc is_severe (Rm * stress_factor) (get_coef_bergstrasser c) ∧
        0 < Dm ∧ 0 < F) →
      d_mini_calc (coef_k_calc is_severe (get_coef_bergstrasser c)) F Dm
          (tau_adm_eff_calc is_severe (Rm * stress_factor) (get_coef_bergstrasser c)) = 0) ∧
    (is_severe = true →
      coef_k_calc is_severe (get_coef_bergstrasser c) = get_coef_bergstrasser c ∧
      (0 < get_coef_bergstrasser c →
        tau_adm_eff_calc is_severe (Rm * stress_factor) (get_coef_bergstrasser c) =
          (Rm * stress_factor) / get_coef_bergstrasser c)) ∧
    (is_severe = false →
      coef_k_calc is_severe (get_coef_bergstrasser c) = 1 ∧
      tau_adm_eff_calc is_severe (Rm * stress_factor) (get_coef_bergstrasser c) =
        Rm * stress_factor) := by
  have hK : 0 < get_coef_bergstrasser c := get_coef_bergstrasser_pos c
  have hck : 0 < coef_k_calc is_severe (get_coef_bergstrasser c) := by
    cases is_severe with
    | true => simpa [coef_k_calc] using hK
    | false => norm_num [coef_k_calc]
  refine ⟨?_, ?_, ?_, ?_⟩
  · intro hte hDm hF
    have hval : 0 < coef_k_calc is_severe (get_coef_bergstrasser c) * 2.55 * F * Dm /
        tau_adm_eff_calc is_severe (Rm * stress_factor) (get_coef_bergstrasser c) :=
      div_pos (by positivity) hte
    rw [d_mini_calc, if_pos ⟨hte, hDm, hF⟩, if_pos hval]
  · intro h
    rw [d_mini_calc, if_neg h]
  · intro hs
    subst hs
    exact ⟨by rw [coef_k_calc, if_pos rfl],
      fun hKpos => by rw [tau_adm_eff_calc, if_pos rfl, if_pos hKpos]⟩
  · intro hs
    subst hs
    constructor
    · rw [coef_k_calc, if_neg (by simp)]
      norm_num
    · rw [tau_adm_eff_calc, if_neg (by simp)]

/-- Concrete instantiation of `c2_d_mini_formula` discharging its
hypotheses (non-severe service, all guards positive). -/
theorem c2_d_mini_formula_witness :
    (0 : ℝ) < tau_adm_eff_calc false (1 * 1) (get_coef_bergstrasser 1) ∧
    d_mini_calc (coef_k_calc false (get_coef_bergstrasser 1)) 30 20
        (tau_adm_eff_calc false (1 * 1) (get_coef_bergstrasser 1)) =
      (coef_k_calc false (get_coef_bergstrasser 1) * 2.55 * 30 * 20 /
        tau_adm_eff_calc false (1 * 1) (get_coef_bergstrasser 1)) ^ ((1 : ℝ) / 3) :=
  ⟨by norm_num [tau_adm_eff_calc],
   (c2_d_mini_formula false 1 1 1 30 20).1 (by norm_num [tau_adm_eff_calc])
     (by norm_num) (by norm_num)⟩

/-- Claim C7: the computed minimum admissible wire diameter is monotone
non-decreasing in the load: for `F1 ≤ F2` with the other inputs held fixed,
`d_mini(F1) ≤ d_mini(F2)`. -/
theorem c7_d_mini_monotone (coef_k tau_adm_eff Dm F1 F2 : ℝ) (hF : F1 ≤ F2) :
    d_mini_calc coef_k F1 Dm tau_adm_eff ≤ d_mini_calc coef_k F2 Dm tau_adm_eff := by
  unfold d_mini_calc
  by_cases hg2 : 0 < tau_adm_eff ∧ 0 < Dm ∧ 0 < F2
  · rw [if_pos hg2]
    by_cases hg1 : 0 < tau_adm_eff ∧ 0 < Dm ∧ 0 < F1
    · rw [if_pos hg1]
      by_cases hv1 : 0 < coef_k * 2.55 * F1 * Dm / tau_adm_eff
      · have hck : 0 < coef_k := by
          rcases lt_trichotomy coef_k 0 with h | h | h
          · exfalso
            have hpos : 0 < 2.55 * F1 * Dm :=
              mul_pos (mul_pos (by norm_num) hg1.2.2) hg1.2.1
            have hneg : coef_k * 2.55 * F1 * Dm < 0 := by
              rw [show coef_k * 2.55 * F1 * Dm = coef_k * (2.55 * F1 * Dm) by ring]
              exact mul_neg_of_neg_of_pos h hpos
            have : coef_k * 2.55 * F1 * Dm / tau_adm_eff < 0 :=
              div_neg_of_neg_of_pos hneg hg1.1
            linarith
          · exfalso
            rw [h] at hv1
            simp at hv1
          · exact h
        have hnum : coef_k * 2.55 * F1 * Dm ≤ coef_k * 2.55 * F2 * Dm := by
          nlinarith [mul_nonneg (mul_nonneg hck.le hg1.2.1.le) (sub_nonneg.mpr hF)]
        have hv12 : coef_k * 2.55 * F1 * Dm / tau_adm_eff ≤
            coef_k * 2.55 * F2 * Dm / tau_adm_eff :=
          (div_le_div_iff_of_pos_right hg1.1).mpr hnum
        rw [if_pos hv1, if_pos (lt_of_lt_of_le hv1 hv12)]
        exact Real.rpow_le_rpow hv1.le hv12 (by norm_num)
      · rw [if_neg hv1]
        by_cases hv2 : 0 < coef_k * 2.55 * F2 * Dm / tau_adm_eff
        · rw [if_pos hv2]
          exact Real.rpow_nonneg (le_of_lt hv2) _
        · rw [if_neg hv2]
    · rw [if_neg hg1]
      by_cases hv2 : 0 < coef_k * 2.55 * F2 * Dm / tau_adm_eff
      · rw [if_pos hv2]
        exact Real.rpow_nonneg (le_of_lt hv2) _
      · rw [if_neg hv2]
  · rw [if_neg hg2]
    have hg1 : ¬ (0 < tau_adm_eff ∧ 0 < Dm ∧ 0 < F1) := by
      rintro ⟨h1, h2, h3⟩
      exact hg2 ⟨h1, h2, lt_of_lt_of_le h3 hF⟩
    rw [if_neg hg1]

/-- Concrete instantiation of `c7_d_mini_monotone` discharging its
hypothesis. -/
theorem c7_d_mini_monotone_witness :
    (1 : ℝ) ≤ 2 ∧ d_mini_calc 1 1 1 1 ≤ d_mini_calc 1 2 1 1 :=
  ⟨by norm_num, c7_d_mini_monotone 1 1 1 1 2 (by norm_num)⟩
